import Mathlib

/-!
Verification development for the SpoofFinder repository (spoof_finder.py).

This file shallowly embeds the parts of `SpoofFinder` that the checked
claims are about:

* a JSON value type `JVal` modelling the decoded payloads returned by
  `SpoofFinder.fetch` (`response.json()`), together with Python dict
  truthiness and the `dict.get` method (which raises `AttributeError`
  when invoked on a non-dict value);
* the enrichment pipeline `handle_asn` (lines 150-266), split into the
  source-ordered phases: source/None checks and `hydra:member`
  normalization (lines 162-167), the country filter (lines 169-173),
  derivation of name, timestamp, spoofability flags, clients and links
  (lines 174-231), and the export-line construction (lines 234-266);
* the token resolver `parse_asn` (lines 70-84) and `_to_asn`
  (lines 285-301), over Python strings modelled as `List Char`;
* the batch normalization and worker loop of `_run_batch`
  (lines 365-391), with `asyncio.gather` without `return_exceptions`
  modelled as a sequential runner whose first raised exception
  propagates to the awaiter;
* the semaphore admission gate `Semaphore(max(1, int(concurrency)))` of
  `_run_batch` as a small transition system.

Network fetches (`fetch`, `find_contact`, `find_links`) are external
effects; their returned values are supplied through an `Env` record, with
`None` results modelled as `JVal.null` / `Option.none` exactly as the
code receives them.
-/

/-- Python exceptions that can escape the modelled code paths.
`fetch` itself swallows every exception (returning `None`), so the only
exceptions that reach `handle_asn`'s caller are those raised by the
processing steps themselves. -/
inductive PyErr where
  | attributeError
  | typeError
deriving Repr, DecidableEq

/-- Decoded JSON values as returned by `response.json()`.  Numbers are
modelled as integers (no claim depends on float behaviour); `null` also
models the Python `None` that `fetch` returns on a failed request. -/
inductive JVal where
  | null
  | bool (b : Bool)
  | num (n : Int)
  | str (s : String)
  | arr (xs : List JVal)
  | obj (fs : List (String × JVal))
deriving Repr

/-- Python `==` between a decoded JSON value and a string literal (as
in `spoof_data.get("routedspoof", "") == "received"`): true exactly for
an equal string; any non-string compares unequal. -/
def isStrEq (v : JVal) (s : String) : Bool :=
  match v with
  | .str t => t == s
  | _ => false

/-- Key lookup in a decoded JSON object (Python dict: keys are unique,
first binding wins). -/
def jlookup : List (String × JVal) → String → Option JVal
  | [], _ => none
  | (k, v) :: rest, key => if k = key then some v else jlookup rest key

/-- Python truthiness of a decoded JSON value (`bool(x)`): `None`,
`False`, `0`, `""`, `[]` and `{}` are falsy. -/
def JVal.truthy : JVal → Bool
  | .null => false
  | .bool b => b
  | .num n => n != 0
  | .str s => s ≠ ""
  | .arr xs => !xs.isEmpty
  | .obj fs => !fs.isEmpty

/-- `x.get(k, d)` on a decoded JSON value: defined for dicts, raises
`AttributeError` on anything else (Python: 'list' / 'str' / 'int'
object has no attribute 'get'). -/
def JVal.getOr : JVal → String → JVal → Except PyErr JVal
  | .obj fs, k, d => .ok ((jlookup fs k).getD d)
  | _, _, _ => .error .attributeError

mutual
/-- Python `repr` of a decoded JSON value (used by `str()` on
containers). -/
def pyRepr : JVal → String
  | .null => "None"
  | .bool true => "True"
  | .bool false => "False"
  | .num n => toString n
  | .str s => "\x27" ++ s ++ "\x27"
  | .arr xs => "[" ++ String.intercalate ", " (pyReprList xs) ++ "]"
  | .obj fs => "\x7b" ++ String.intercalate ", " (pyReprObj fs) ++ "\x7d"

def pyReprList : List JVal → List String
  | [] => []
  | x :: xs => pyRepr x :: pyReprList xs

def pyReprObj : List (String × JVal) → List String
  | [] => []
  | (k, v) :: fs => ("\x27" ++ k ++ "\x27: " ++ pyRepr v) :: pyReprObj fs
end

/-- Python `str()` of a decoded JSON value. -/
def pyStr : JVal → String
  | .str s => s
  | v => pyRepr v

/-- A parsed `datetime` as produced by `datetime.strptime`. -/
structure PyDateTime where
  year : Nat
  month : Nat
  day : Nat
  hour : Nat
  minute : Nat
  second : Nat
deriving Repr, DecidableEq

/-- Digit value of a character. -/
def digitVal (c : Char) : Nat := c.toNat - 48

/-- Parse exactly four digits (the `%Y` directive of `strptime`). -/
def parseYear4 : List Char → Option (Nat × List Char)
  | a :: b :: c :: d :: rest =>
    if a.isDigit && b.isDigit && c.isDigit && d.isDigit then
      some (digitVal a * 1000 + digitVal b * 100 + digitVal c * 10 + digitVal d, rest)
    else none
  | _ => none

/-- Parse a one-or-two digit field the way the `_strptime` regexes do:
the two-digit alternatives are tried first, then a single digit. -/
def parse2or1 (two : Nat → Nat → Bool) (one : Nat → Bool) :
    List Char → Option (Nat × List Char)
  | a :: b :: rest =>
    if a.isDigit && b.isDigit && two (digitVal a) (digitVal b) then
      some (digitVal a * 10 + digitVal b, rest)
    else if a.isDigit && one (digitVal a) then some (digitVal a, b :: rest)
    else none
  | [a] => if a.isDigit && one (digitVal a) then some (digitVal a, []) else none
  | [] => none

/-- `%m`: regex `1[0-2]|0[1-9]|[1-9]`. -/
def parseMonth : List Char → Option (Nat × List Char) :=
  parse2or1 (fun d1 d2 => (d1 == 1 && d2 ≤ 2) || (d1 == 0 && 1 ≤ d2)) (fun d => 1 ≤ d)

/-- `%d`: regex `3[01]|[12]\d|0[1-9]|[1-9]`. -/
def parseDay : List Char → Option (Nat × List Char) :=
  parse2or1 (fun d1 d2 => (d1 == 3 && d2 ≤ 1) || d1 == 1 || d1 == 2 || (d1 == 0 && 1 ≤ d2))
    (fun d => 1 ≤ d)

/-- `%H`: regex `2[0-3]|[0-1]\d|\d`. -/
def parseHour : List Char → Option (Nat × List Char) :=
  parse2or1 (fun d1 d2 => (d1 == 2 && d2 ≤ 3) || d1 ≤ 1) (fun _ => true)

/-- `%M` and `%S`: regex `[0-5]\d|\d`. -/
def parseMinSec : List Char → Option (Nat × List Char) :=
  parse2or1 (fun d1 _ => d1 ≤ 5) (fun _ => true)

/-- Match one literal format character; `strptime` compiles its format
regex with `re.IGNORECASE`, so literals match case-insensitively. -/
def parseLit (c : Char) : List Char → Option (List Char)
  | a :: rest => if a.toLower == c.toLower then some rest else none
  | [] => none

/-- Match a list of literal characters. -/
def parseLits : List Char → List Char → Option (List Char)
  | [], rest => some rest
  | c :: cs, rest => (parseLit c rest).bind (parseLits cs)

/-- Days in a month, as validated by the `datetime` constructor that
`strptime` ultimately calls. -/
def daysInMonth (y m : Nat) : Nat :=
  if m == 2 then
    if y % 4 == 0 && (y % 100 != 0 || y % 400 == 0) then 29 else 28
  else if m == 4 || m == 6 || m == 9 || m == 11 then 30
  else 31

/-- `datetime.strptime(s, '%Y-%m-%dT%H:%M:%S+00:00')`, with every
`ValueError` (regex mismatch, trailing garbage, day out of range for
the month, year below `MINYEAR`) collapsed to `none` — exactly the
failures that `handle_asn`'s `except ValueError` swallows. -/
def strptimeTs (s : String) : Option PyDateTime := do
  let (y, r1) ← parseYear4 s.toList
  let r2 ← parseLit '-' r1
  let (mo, r3) ← parseMonth r2
  let r4 ← parseLit '-' r3
  let (d, r5) ← parseDay r4
  let r6 ← parseLit 'T' r5
  let (h, r7) ← parseHour r6
  let r8 ← parseLit ':' r7
  let (mi, r9) ← parseMinSec r8
  let r10 ← parseLit ':' r9
  let (se, r11) ← parseMinSec r10
  let r12 ← parseLits ['+', '0', '0', ':', '0', '0'] r11
  if r12.isEmpty && 1 ≤ y && d ≤ daysInMonth y mo then
    some ⟨y, mo, d, h, mi, se⟩
  else none

/-- `datetime.strptime(value, ...)` as called on
`spoof_data.get("timestamp", '')` (line 176): a string argument either
parses or raises `ValueError` (caught, yielding `None`); a non-string
argument raises `TypeError`, which the `except ValueError` clause does
NOT catch. -/
def strptimeOrRaise : JVal → Except PyErr (Option PyDateTime)
  | .str s => .ok (strptimeTs s)
  | _ => .error .typeError

/-- The externally-fetched inputs consumed by one `handle_asn` call:
the two `fetch_spoof_data` payloads (with `None` as `JVal.null`), the
`find_contact` triple, and the two possible `find_links` results. -/
structure Env where
  spoofResp : JVal
  rankResp : JVal
  site : Option String
  mail : Option String
  phone : Option String
  nameLinks : Option (List String)
  siteLinks : Option (List String)
deriving Repr

/-- The per-ASN data computed by a successful `handle_asn` run
(the fields of the spec's EnrichmentResult that claims refer to). -/
structure EnrichResult where
  asName : String
  lastCheck : Option PyDateTime
  localV4 : Bool
  internetV4 : Bool
  localV6 : Bool
  internetV6 : Bool
  client4 : JVal
  client6 : JVal
  asnVal : JVal
  asn6 : JVal
  site : Option String
  mail : Option String
  phone : Option String
  links : Option (List String)
deriving Repr

/-- How one `handle_asn` call ends when it does not raise:
`noData` is the logged early return "No data found for ASN" (lines
163/166); `filtered` is the silent `return` of the country filter
(line 173), which emits no message and writes nothing; `done r lines`
is a completed enrichment whose export effect is exactly the lines
handed to `_export_line` (the `exported` list). -/
inductive Outcome where
  | noData
  | filtered
  | done (r : EnrichResult) (exported : List String)
deriving Repr

/-- Line 162's rank navigation
`asrank_data.get("data", {}).get("asn")`. -/
def rankAsnField (rank : JVal) : Except PyErr JVal :=
  match rank.getOr "data" (.obj []) with
  | .error e => .error e
  | .ok d => d.getOr "asn" .null

/-- Lines 164-167: unwrap a `hydra:member` envelope (dict `get` with the
payload itself as default), treat a falsy unwrapped value as absent,
and select the last element when the unwrapped value is a list. -/
def normalizeSpoof (spoof : JVal) : Except PyErr (Option JVal) :=
  match spoof.getOr "hydra:member" spoof with
  | .error e => .error e
  | .ok m =>
    if m.truthy = false then .ok none
    else .ok (some (match m with | .arr xs => xs.getLastD .null | v => v))

/-- Lines 162-167 combined: the "no data" checks on the two fetched
payloads followed by spoof-payload normalization.  Returns `none` for
the logged "No data found" early returns, and otherwise the pair of
the rank `asn` record and the normalized spoof record. -/
def checkAndNormalize (spoof rank : JVal) : Except PyErr (Option (JVal × JVal)) :=
  if spoof.truthy = false then .ok none
  else if rank.truthy = false then .ok none
  else
    match rankAsnField rank with
    | .error e => .error e
    | .ok aRec =>
      if aRec.truthy = false then .ok none
      else
        match normalizeSpoof spoof with
        | .error e => .error e
        | .ok none => .ok none
        | .ok (some record) => .ok (some (aRec, record))

/-- Python `str.upper()` (character-wise, reduction-friendly). -/
def pyUpper (s : String) : String := ⟨s.toList.map Char.toUpper⟩

/-- Python `s.startswith(p)` on Lean strings (list-based so that it
evaluates by `decide`/`rfl`). -/
def pyStartsWith (s p : String) : Bool := s.toList.take p.toList.length == p.toList

/-- Lines 169-173: the optional country filter.  A `None` or empty
filter is skipped (`if country_filter:`); otherwise the record's
country field is `str()`-coerced, upper-cased, and compared by
`startswith` against the upper-cased filter.  `ok false` is the silent
non-matching `return`. -/
def countryGate (cf : Option String) (record : JVal) : Except PyErr Bool :=
  match cf with
  | none => .ok true
  | some c =>
    if c = "" then .ok true
    else
      match record.getOr "country" (.str "") with
      | .error e => .error e
      | .ok cv => .ok (pyStartsWith (pyUpper (pyStr cv)) (pyUpper c))

/-- `.upper()` on the value logged at line 206
(`spoof_data.get('country', 'N/A').upper()`): defined on strings,
`AttributeError` on anything else. -/
def ensureStrUpper : JVal → Except PyErr Unit
  | .str _ => .ok ()
  | _ => .error .attributeError

/-- Lines 222-227: `links = find_links(as_name + " server")`, then if
the contact site is truthy, `site_links = find_links(site)` and
`links.extend(site_links)` when the latter is truthy — which raises
`AttributeError` when `links` is `None`. -/
def linksStep (env : Env) : Except PyErr (Option (List String)) :=
  if (env.site.getD "") = "" then .ok env.nameLinks
  else
    match env.siteLinks with
    | none => .ok env.nameLinks
    | some sl =>
      if sl.isEmpty then .ok env.nameLinks
      else
        match env.nameLinks with
        | some l => .ok (some (l ++ sl))
        | none => .error .attributeError

/-- Lines 174-231: derivation of the enrichment fields, in source
order: `asnName` (174), timestamp parse (175-178), the four
spoofability flags by exact sentinel comparison (179-182), clients and
secondary ASNs (183-186), the contact triple (187, supplied by `Env`;
`find_contact` cannot raise), the country display `.upper()` (206), the
string concatenation `as_name + " server"` (223, `TypeError` on a
non-string name) and the link aggregation (223-227). -/
def deriveResult (aRec record : JVal) (asn : String) (env : Env) :
    Except PyErr EnrichResult := do
  let asNameJ ← aRec.getOr "asnName" (.str "Unknown")
  let tsJ ← record.getOr "timestamp" (.str "")
  let lastCheck ← strptimeOrRaise tsJ
  let rs ← record.getOr "routedspoof" (.str "")
  let ps ← record.getOr "privatespoof" (.str "")
  let rs6 ← record.getOr "routedspoof6" (.str "")
  let ps6 ← record.getOr "privatespoof6" (.str "")
  let client4 ← record.getOr "client4" (.str "")
  let client6 ← record.getOr "client6" (.str "")
  let asnVal ← record.getOr "asn4" (.str asn)
  let asn6 ← record.getOr "asn6" (.str "")
  let countryJ ← record.getOr "country" (.str "N/A")
  let _ ← ensureStrUpper countryJ
  let asName ← (match asNameJ with
    | .str s => Except.ok s
    | _ => Except.error PyErr.typeError)
  let links ← linksStep env
  pure
    { asName := asName
      lastCheck := lastCheck
      localV4 := isStrEq rs "received"
      internetV4 := isStrEq ps "sent"
      localV6 := isStrEq rs6 "received"
      internetV6 := isStrEq ps6 "sent"
      client4 := client4
      client6 := client6
      asnVal := asnVal
      asn6 := asn6
      site := env.site
      mail := env.mail
      phone := env.phone
      links := links }

/-- `.lstrip("AS")` on a Python string: drop every leading character
that is `A` or `S` (a character-set strip, not a prefix strip). -/
def pyLstripAS (s : String) : String :=
  ⟨s.toList.dropWhile (fun c => c == 'A' || c == 'S')⟩

/-- Lines 234-266: the export effect of one completed enrichment.
Returns the list of lines handed to `_export_line` — one tab-delimited
line when `any_spoofable and self.export_path` holds, nothing
otherwise.  (`_export_line` appends each handed line to the export
file under the shared lock; a file-write failure is logged and
swallowed.) -/
def exportLinesOf (exportOn : Bool) (asn : String) (r : EnrichResult) : List String :=
  let anySpoofable := r.localV4 || r.internetV4 || r.localV6 || r.internetV6
  if anySpoofable && exportOn then
    let providerUrl : Option String :=
      match r.site with
      | some s =>
        if s ≠ "" then
          some (if pyStartsWith s "http://" || pyStartsWith s "https://" then s
                else "https://" ++ s)
        else none
      | none => none
    let asnDisplay :=
      pyLstripAS (pyStr (if r.asnVal.truthy then r.asnVal else .str asn))
    let asrankUrl := "https://asrank.caida.org/asns/AS" ++ asnDisplay
    let heUrl := "https://bgp.he.net/AS" ++ asnDisplay
    let sub4 := (if r.localV4 then ["Local"] else []) ++
      (if r.internetV4 then ["Internet"] else [])
    let sub6 := (if r.localV6 then ["Local"] else []) ++
      (if r.internetV6 then ["Internet"] else [])
    let labels :=
      (if (r.localV4 || r.internetV4) && !sub4.isEmpty then
        ["IPv4(" ++ String.intercalate ", " sub4 ++ ")"] else []) ++
      (if (r.localV6 || r.internetV6) && !sub6.isEmpty then
        ["IPv6(" ++ String.intercalate ", " sub6 ++ ")"] else [])
    let spoofDesc := if labels.isEmpty then "Spoofable" else String.intercalate ", " labels
    let parts := ["AS" ++ asnDisplay,
      (if r.asName ≠ "" then r.asName else "Unknown"),
      spoofDesc, providerUrl.getD "", asrankUrl, heUrl]
    [String.intercalate "\t" parts]
  else []

/-- `handle_asn(asn, country_filter)` (lines 150-266) for one ASN, with
the fetched inputs supplied by `env` and `exportOn` the truthiness of
`self.export_path`.  `Except.error` models a Python exception escaping
`handle_asn`. -/
def handleAsn (env : Env) (asn : String) (cf : Option String) (exportOn : Bool) :
    Except PyErr Outcome :=
  match checkAndNormalize env.spoofResp env.rankResp with
  | .error e => .error e
  | .ok none => .ok .noData
  | .ok (some (aRec, record)) =>
    match countryGate cf record with
    | .error e => .error e
    | .ok false => .ok .filtered
    | .ok true =>
      match deriveResult aRec record asn env with
      | .error e => .error e
      | .ok r => .ok (.done r (exportLinesOf exportOn asn r))

/-! ## Token resolver (`parse_asn`, `_to_asn`) over Python strings as `List Char` -/

/-- Python `str.strip()`: drop leading and trailing whitespace. -/
def pyStrip (s : List Char) : List Char :=
  ((s.dropWhile Char.isWhitespace).reverse.dropWhile Char.isWhitespace).reverse

/-- Python `str.isdigit()`: nonempty and all digits. -/
def pyIsDigit (s : List Char) : Bool :=
  !s.isEmpty && s.all Char.isDigit

/-- Python `str.lower()`. -/
def pyLower (s : List Char) : List Char := s.map Char.toLower

/-- Python `str.startswith(p)`. -/
def listStartsWith (p s : List Char) : Bool := s.take p.length == p

/-- `SpoofFinder.parse_asn` (lines 70-84): if the lower-cased target
starts with "as", return the target with its first two characters
removed; otherwise return the target unchanged (the `isdigit` branch
returns the same value in both arms). -/
def parse_asn (target : List Char) : List Char :=
  if listStartsWith ['a', 's'] (pyLower target) then target.drop 2
  else target

/-- Where `_to_asn` (lines 285-301) ends for one token, up to the
network boundary: `noToken` is the empty-token `None`; `invalidRange`
is the `AddrFormatError` `None`; `localAsn s` is the all-digits return
at line 297 — reached with NO network call; `lookup q` records that the
resolver would now call `get_asn_info(q)` (an HTTP fetch). -/
inductive ToAsnResult where
  | noToken
  | invalidRange
  | localAsn (s : List Char)
  | lookup (q : List Char)
deriving Repr, DecidableEq

/-- `_to_asn` (lines 285-301), with the `netaddr` library modelled by
the oracle `ipFirst` mapping a CIDR/range token to
`str(IPNetwork(token)[0])`, or `none` when `IPNetwork` raises
`AddrFormatError`. -/
def toAsnModel (ipFirst : List Char → Option (List Char)) (token : List Char) :
    ToAsnResult :=
  let t0 := pyStrip token
  if t0.isEmpty then .noToken
  else
    let t1 := parse_asn t0
    match (if t1.contains '/' || t1.contains '-' then ipFirst t1 else some t1) with
    | none => .invalidRange
    | some t2 => if pyIsDigit t2 then .localAsn t2 else .lookup t2

/-- The regex `^(AS|as)?\d+$` from the spec's Token Resolver property. -/
def matchesAsnToken (s : List Char) : Bool :=
  if listStartsWith ['A', 'S'] s || listStartsWith ['a', 's'] s then
    pyIsDigit (s.drop 2)
  else pyIsDigit s

/-! ## Batch normalization and worker loop (`_run_batch`, lines 365-391) -/

/-- `str.strip()` on a Lean `String`. -/
def pyStripS (s : String) : String := ⟨pyStrip s.toList⟩

/-- `str.lstrip("AS")` on a Lean `String`: drop every leading `A` or
`S` (already defined as `pyLstripAS`; this is the same function). -/
def pyLstripASS (s : String) : String := pyLstripAS s

/-- `str.isdigit()` on a Lean `String`. -/
def pyIsDigitS (s : String) : Bool := pyIsDigit s.toList

/-- The per-token normalization applied by `_run_batch`'s loop
(lines 373-377): strip, lstrip("AS"), strip. -/
def normTok (a : String) : String := pyStripS (pyLstripASS (pyStripS a))

/-- The `_run_batch` normalization loop (lines 371-380): strip each
token, skip empties, strip every leading `A`/`S` and strip again, keep
the result when it is all digits and not seen before. -/
def batchNormalizeAux (seen acc : List String) : List String → List String
  | [] => acc.reverse
  | a :: rest =>
    let a1 := pyStripS a
    if a1 = "" then batchNormalizeAux seen acc rest
    else
      let a2 := pyStripS (pyLstripASS a1)
      if pyIsDigitS a2 && !(seen.contains a2) then
        batchNormalizeAux (a2 :: seen) (a2 :: acc) rest
      else batchNormalizeAux seen acc rest

/-- The normalized, deduplicated ASN list of `_run_batch` before the
optional `limit` truncation. -/
def batchNormalize (asns : List String) : List String :=
  batchNormalizeAux [] [] asns

/-- First-seen-order deduplication (reference form used to state what
the loop computes). -/
def dedupFirstAux (seen : List String) : List String → List String
  | [] => []
  | a :: rest =>
    if seen.contains a then dedupFirstAux seen rest
    else a :: dedupFirstAux (a :: seen) rest

/-- `deduped[:limit] if limit is not None and limit > 0 else deduped`
(lines 381-382). -/
def applyLimit (limit : Option Int) (l : List String) : List String :=
  match limit with
  | some k => if 0 < k then l.take k.toNat else l
  | none => l

/-- The deduplicated, limit-truncated ASN list that `_run_batch` spawns
one worker per element for. -/
def batchTargets (asns : List String) (limit : Option Int) : List String :=
  applyLimit limit (batchNormalize asns)

/-- The worker tasks joined by `await gather(*tasks)` (lines 385-391),
`return_exceptions` left at its default `False`: every worker's
outcome is collected, and a worker's uncaught exception propagates to
the awaiting `_run_batch` call instead of a result list.  (The real
workers run concurrently under the semaphore; completion order does
not affect which outcomes exist, so the model joins them in input
order.) -/
def runWorkers (worker : String → Except PyErr Outcome) :
    List String → Except PyErr (List Outcome)
  | [] => .ok []
  | a :: rest =>
    match worker a with
    | .error e => .error e
    | .ok o =>
      match runWorkers worker rest with
      | .error e => .error e
      | .ok os => .ok (o :: os)

/-- `_run_batch(asns, country_filter, concurrency, limit)` (lines
365-391) with each worker's fetched inputs supplied by `env`: normalize
and deduplicate the tokens, truncate to the limit, run one
`handle_asn` worker per surviving ASN, and join them as `gather`
does. -/
def runBatch (env : String → Env) (asns : List String) (cf : Option String)
    (exportOn : Bool) (limit : Option Int) : Except PyErr (List Outcome) :=
  runWorkers (fun a => handleAsn (env a) a cf exportOn) (batchTargets asns limit)

/-! ## The semaphore admission gate of `_run_batch` (lines 383-387) -/

/-- `max(1, int(concurrency))`: the number of permits the semaphore is
created with. -/
def gateSize (concurrency : Int) : Nat := (max 1 concurrency).toNat

/-- A snapshot of one batch run: workers that have not yet entered
`async with sem`, workers currently inside the gate (an active
`handle_asn` invocation), and free semaphore permits. -/
structure SemState where
  waiting : Nat
  active : Nat
  permits : Nat
deriving Repr, DecidableEq

/-- The two scheduler events that change the gate state: a waiting
worker acquires a free permit and becomes active, or an active worker
finishes `handle_asn` and releases its permit.  The semaphore is the
only admission control in `_run_batch`. -/
inductive SemStep : SemState → SemState → Prop where
  | acquire (w a p : Nat) : SemStep ⟨w + 1, a, p + 1⟩ ⟨w, a + 1, p⟩
  | release (w a p : Nat) : SemStep ⟨w, a + 1, p⟩ ⟨w, a, p + 1⟩

/-- The initial state of a batch over `n` ASNs with the given
`concurrency` argument: all workers waiting, none active, the
semaphore holding `max(1, int(concurrency))` permits. -/
def initState (n : Nat) (concurrency : Int) : SemState :=
  ⟨n, 0, gateSize concurrency⟩

/-- States a batch run can reach from its initial state. -/
def ReachableSem (n : Nat) (concurrency : Int) (s : SemState) : Prop :=
  Relation.ReflTransGen SemStep (initState n concurrency) s

/-! ## Helper lemmas -/

theorem digit_toLower (c : Char) (h : c.isDigit = true) : c.toLower = c := by
  simp [Char.isDigit] at h
  obtain ⟨h1, h2⟩ := h
  have hn2 : c.toNat ≤ 57 := h2
  unfold Char.toLower
  rw [if_neg]
  omega

theorem digit_not_ws (c : Char) (h : c.isDigit = true) : c.isWhitespace = false := by
  cases hw : c.isWhitespace
  · rfl
  · exfalso
    have hc : c = ' ' ∨ c = '\t' ∨ c = '\x0d' ∨ c = '\n' := by
      have hw2 := hw
      simp [Char.isWhitespace] at hw2
      tauto
    rcases hc with rfl | rfl | rfl | rfl <;> exact absurd h (by decide)

theorem digit_ne_lower_a (c : Char) (h : c.isDigit = true) : c.toLower ≠ 'a' := by
  rw [digit_toLower c h]
  intro he
  subst he
  exact absurd h (by decide)

theorem dropWhile_eq_self_of_all (p : Char → Bool) (l : List Char)
    (h : ∀ c ∈ l, p c = false) : l.dropWhile p = l := by
  cases l with
  | nil => rfl
  | cons a t => simp [List.dropWhile_cons, h a (by simp)]

theorem pyStrip_eq_self (l : List Char) (h : ∀ c ∈ l, c.isWhitespace = false) :
    pyStrip l = l := by
  unfold pyStrip
  rw [dropWhile_eq_self_of_all _ _ h, dropWhile_eq_self_of_all _ _ ?_,
    List.reverse_reverse]
  intro c hc
  exact h c (List.mem_reverse.1 hc)

theorem pyIsDigit_mem (l : List Char) (h : pyIsDigit l = true) :
    ∀ c ∈ l, c.isDigit = true := by
  unfold pyIsDigit at h
  simp only [Bool.and_eq_true, List.all_eq_true] at h
  exact h.2

theorem pyIsDigit_not_nil (l : List Char) (h : pyIsDigit l = true) : l ≠ [] := by
  intro he
  subst he
  exact absurd h (by decide)

theorem not_mem_of_digits (l : List Char) (h : ∀ c ∈ l, c.isDigit = true)
    (d : Char) (hd : d.isDigit = false) : d ∉ l := by
  intro hm
  rw [h d hm] at hd
  cases hd

theorem listStartsWith2_iff (t1 t2 : Char) (s : List Char) :
    listStartsWith [t1, t2] s = true ↔ ∃ rest, s = t1 :: t2 :: rest := by
  cases s with
  | nil => simp [listStartsWith]
  | cons a t =>
    cases t with
    | nil => simp [listStartsWith]
    | cons b r => simp [listStartsWith, List.take_succ_cons, beq_iff_eq]


/-- Everything a completed `handle_asn` run implies: the sources passed
the line-162 checks, the country gate accepted, the derivation
succeeded, and the exported lines are exactly the ones built at lines
234-266 from the result. -/
theorem handleAsn_done_inv {env : Env} {asn : String} {cf : Option String} {eo : Bool}
    {r : EnrichResult} {ls : List String}
    (h : handleAsn env asn cf eo = .ok (.done r ls)) :
    ∃ aRec record,
      checkAndNormalize env.spoofResp env.rankResp = .ok (some (aRec, record)) ∧
      countryGate cf record = .ok true ∧
      deriveResult aRec record asn env = .ok r ∧
      ls = exportLinesOf eo asn r := by
  unfold handleAsn at h
  repeat' split at h
  all_goals simp_all
  rename_i x2 aRec record hc x1 hg x0 r2 hd
  obtain ⟨hr, hls⟩ := h
  subst hr
  exact ⟨aRec, record, ⟨rfl, rfl⟩, hg, hd, hls.symm⟩

/-- What `checkAndNormalize` returning a record pair implies about the
two payloads. -/
theorem checkAndNormalize_some_inv {spoof rank a rec : JVal}
    (h : checkAndNormalize spoof rank = .ok (some (a, rec))) :
    spoof.truthy = true ∧ rank.truthy = true ∧ rankAsnField rank = .ok a ∧
      a.truthy = true ∧ normalizeSpoof spoof = .ok (some rec) := by
  unfold checkAndNormalize at h
  repeat' split at h
  all_goals simp_all

/-- Lines 240-266 produce a line exactly when a spoofability flag is
set (given a configured export path). -/
theorem exportLinesOf_ne_nil_iff (asn : String) (r : EnrichResult) :
    (exportLinesOf true asn r ≠ [] ↔
      (r.localV4 || r.internetV4 || r.localV6 || r.internetV6) = true) := by
  unfold exportLinesOf
  cases h1 : r.localV4 <;> cases h2 : r.internetV4 <;> cases h3 : r.localV6 <;>
    cases h4 : r.internetV6 <;> simp

/-! ## Concrete fixtures used by witnesses and counterexamples -/

/-- A well-formed ASRank `asn` record. -/
def aRecGood : JVal := .obj [("asnName", .str "NameX"), ("rank", .num 5)]

/-- A well-formed ASRank payload. -/
def rankGood : JVal := .obj [("data", .obj [("asn", aRecGood)])]

/-- A spoof-session record whose `routedspoof` is `"received"` and
whose country is `"RUS"`. -/
def recGood : JVal := .obj [("routedspoof", .str "received"), ("country", .str "RUS")]

/-- A fully well-formed environment: enveloped spoof record, good rank
payload, no contact and no links. -/
def envGood : Env :=
  ⟨.obj [("hydra:member", .arr [recGood])], rankGood, none, none, none, none, none⟩

/-- The enrichment `handle_asn` computes from `envGood` for a given
ASN argument. -/
def resSpoofable (asn : String) : EnrichResult :=
  ⟨"NameX", none, true, false, false, false, .str "", .str "", .str asn, .str "",
    none, none, none, none⟩

/-- The export line `handle_asn` writes for `envGood` and ASN 7. -/
def lineGood7 : String :=
  "AS7\tNameX\tIPv4(Local)\t\thttps://asrank.caida.org/asns/AS7\thttps://bgp.he.net/AS7"

/-- An environment whose rank payload is a JSON list: it contains no
record under `data.asn` at all. -/
def envRankList : Env :=
  ⟨.obj [("routedspoof", .str "received")], .arr [.num 1], none, none, none, none, none⟩

/-- An environment whose spoof payload is a top-level JSON list whose
last (only) element reports `routedspoof = "received"`. -/
def envSpoofList : Env := ⟨.arr [recGood], rankGood, none, none, none, none, none⟩

/-- The claim-C3 scenario: rank source returns a payload whose
`data.asn` is `null`. -/
def envRankNullAsn : Env :=
  ⟨.obj [("hydra:member", .arr [recGood])], .obj [("data", .obj [("asn", .null)])],
    none, none, none, none, none⟩

/-- An environment whose (enveloped, single) spoof record carries the
given value in its `timestamp` field. -/
def envTsRec (ts : JVal) : Env :=
  ⟨.obj [("hydra:member", .arr [.obj [("timestamp", ts)]])], rankGood,
    none, none, none, none, none⟩

/-- An environment whose spoof record has no `timestamp` field. -/
def envTsMissing : Env :=
  ⟨.obj [("hydra:member", .arr [.obj [("foo", .num 1)]])], rankGood,
    none, none, none, none, none⟩

/-- The enrichment produced for a record with no spoofable flags: name
from `aRecGood`, the given parsed timestamp, everything else at its
defaults. -/
def resPlain (lc : Option PyDateTime) (asn : String) : EnrichResult :=
  ⟨"NameX", lc, false, false, false, false, .str "", .str "", .str asn, .str "",
    none, none, none, none⟩

/-- An envelope containing two member records; the last one is
`recGood`. -/
def envelope2 (r1 : JVal) : Env :=
  ⟨.obj [("hydra:member", .arr [r1, recGood])], rankGood, none, none, none, none, none⟩

/-! ## Claim C1 -/

/-- Claim C1: for every enrichment processed by `handle_asn` with an
export path configured, a line is appended to the export file if and
only if at least one of the four spoofability booleans is true; a
result with all four flags false produces zero export lines. -/
theorem claim_C1_export_iff_any_spoofable (env : Env) (asn : String)
    (cf : Option String) (r : EnrichResult) (ls : List String)
    (h : handleAsn env asn cf true = .ok (.done r ls)) :
    (ls ≠ [] ↔ (r.localV4 || r.internetV4 || r.localV6 || r.internetV6) = true) ∧
    ((r.localV4 || r.internetV4 || r.localV6 || r.internetV6) = false → ls = []) := by
  obtain ⟨aRec, record, hc, hg, hd, hls⟩ := handleAsn_done_inv h
  subst hls
  refine ⟨exportLinesOf_ne_nil_iff asn r, fun hf => ?_⟩
  by_contra hne
  rw [(exportLinesOf_ne_nil_iff asn r).1 hne] at hf
  exact Bool.noConfusion hf

/-- Witness for C1, instantiated at `envGood` and ASN 7: the export
lines are non-empty and the flags include `local_v4`. -/
theorem claim_C1_export_iff_any_spoofable_witness :
    (([lineGood7] : List String) ≠ [] ↔
      ((resSpoofable "7").localV4 || (resSpoofable "7").internetV4 ||
        (resSpoofable "7").localV6 || (resSpoofable "7").internetV6) = true) ∧
    (((resSpoofable "7").localV4 || (resSpoofable "7").internetV4 ||
        (resSpoofable "7").localV6 || (resSpoofable "7").internetV6) = false →
      ([lineGood7] : List String) = []) :=
  claim_C1_export_iff_any_spoofable envGood "7" none (resSpoofable "7") [lineGood7] rfl

/-! ## Claim C6 -/

/-- Claim C6: with a non-empty country filter, an enrichment that
reaches the filter is accepted exactly when the filter code is a
prefix of the record's reported country value (both sides upper-cased
by the code, the stored value `str()`-coerced); on mismatch the
enrichment ends as `Outcome.filtered` — the bare `return` at line 173,
which logs nothing and exports nothing, unlike the logged `noData`
returns. -/
theorem claim_C6_country_filter (env : Env) (asn : String) (eo : Bool) (c : String)
    (aRec record cv : JVal)
    (hcne : c ≠ "")
    (hnorm : checkAndNormalize env.spoofResp env.rankResp = .ok (some (aRec, record)))
    (hcv : record.getOr "country" (.str "") = .ok cv) :
    (pyStartsWith (pyUpper (pyStr cv)) (pyUpper c) = false →
      handleAsn env asn (some c) eo = .ok .filtered) ∧
    (pyStartsWith (pyUpper (pyStr cv)) (pyUpper c) = true →
      handleAsn env asn (some c) eo ≠ .ok .filtered) := by
  have hg : countryGate (some c) record =
      .ok (pyStartsWith (pyUpper (pyStr cv)) (pyUpper c)) := by
    simp only [countryGate]
    rw [if_neg hcne, hcv]
  constructor
  · intro hf
    rw [hf] at hg
    unfold handleAsn
    rw [hnorm]
    simp [hg]
  · intro ht h
    rw [ht] at hg
    unfold handleAsn at h
    repeat' split at h
    all_goals simp_all

/-- Witness for C6 at the spec's own example: stored country `"RUS"`
is accepted by filter `"RU"` (prefix) and rejected by filter `"US"`. -/
theorem claim_C6_country_filter_witness :
    (handleAsn envGood "7" (some "US") true = .ok .filtered) ∧
    (handleAsn envGood "7" (some "RU") true ≠ .ok .filtered) :=
  ⟨(claim_C6_country_filter envGood "7" true "US" aRecGood recGood (.str "RUS")
      (by decide) rfl rfl).1 (by decide),
   (claim_C6_country_filter envGood "7" true "RU" aRecGood recGood (.str "RUS")
      (by decide) rfl rfl).2 (by decide)⟩

/-! ## Claim C3 -/

/-- Claim C3 counterexample: the rank payload `[1]` (a JSON list)
contains no resolvable ASN record under `data.asn`, so the claim
demands an absent enrichment; the code instead raises an uncaught
`AttributeError` at line 162 (`'list' object has no attribute 'get'`),
so the enrichment neither yields the logged absent result nor any
other outcome. -/
theorem claim_C3_counterexample :
    handleAsn envRankList "1" none false = .error .attributeError ∧
    handleAsn envRankList "1" none false ≠ .ok .noData := by
  refine ⟨rfl, fun h => ?_⟩
  rw [show handleAsn envRankList "1" none false = Except.error PyErr.attributeError
    from rfl] at h
  exact Except.noConfusion h

/-- Claim C3 (amended): enrichment is the logged absent result whenever
the spoof fetch is absent/falsy, the rank fetch is absent/falsy, or the
`data.asn` navigation of the rank payload succeeds with a falsy value
(the lookup itself raises an uncaught `AttributeError` on non-object
shapes instead); and no partial result exists: a completed enrichment
implies both payloads were truthy and the `data.asn` navigation
returned a truthy record. -/
theorem claim_C3_amended_no_partial_results :
    (∀ env : Env, ∀ asn cf eo, env.spoofResp.truthy = false →
      handleAsn env asn cf eo = .ok .noData) ∧
    (∀ env : Env, ∀ asn cf eo, env.rankResp.truthy = false →
      handleAsn env asn cf eo = .ok .noData) ∧
    (∀ env : Env, ∀ asn cf eo a, rankAsnField env.rankResp = .ok a →
      a.truthy = false → handleAsn env asn cf eo = .ok .noData) ∧
    (∀ env : Env, ∀ asn cf eo r ls, handleAsn env asn cf eo = .ok (.done r ls) →
      env.spoofResp.truthy = true ∧ env.rankResp.truthy = true ∧
      ∃ a, rankAsnField env.rankResp = .ok a ∧ a.truthy = true) := by
  refine ⟨?_, ?_, ?_, ?_⟩
  · intro env asn cf eo h
    simp [handleAsn, checkAndNormalize, h]
  · intro env asn cf eo h
    cases hs : env.spoofResp.truthy <;> simp [handleAsn, checkAndNormalize, hs, h]
  · intro env asn cf eo a ha hf
    cases hs : env.spoofResp.truthy <;> cases ht : env.rankResp.truthy <;>
      simp [handleAsn, checkAndNormalize, hs, ht, ha, hf]
  · intro env asn cf eo r ls h
    obtain ⟨aRec, record, hc, -, -, -⟩ := handleAsn_done_inv h
    obtain ⟨hs, ht, hr, ha, -⟩ := checkAndNormalize_some_inv hc
    exact ⟨hs, ht, aRec, hr, ha⟩

/-- Witness for the amended C3 at the spec's scenario: the rank source
returns a payload whose `data.asn` is `null`, and enrichment is the
absent (`noData`) outcome regardless of the (perfect) spoof payload. -/
theorem claim_C3_amended_witness :
    handleAsn envRankNullAsn "7" none false = .ok .noData :=
  claim_C3_amended_no_partial_results.2.2.1 envRankNullAsn "7" none false .null rfl rfl

/-! ## Claim C4 -/

/-- Claim C4 counterexample: a spoof-session payload that is a
top-level JSON list whose last (only) element has
`routedspoof = "received"`.  The claim demands that normalization
select the last element and flag derivation yield `local_v4 = true`;
the code instead raises an uncaught `AttributeError` at line 164
(`spoof_data.get` on a list). -/
theorem claim_C4_counterexample :
    handleAsn envSpoofList "7" none false = .error .attributeError ∧
    handleAsn envSpoofList "7" none false ≠ .ok (.done (resSpoofable "7") []) := by
  refine ⟨rfl, fun h => ?_⟩
  rw [show handleAsn envSpoofList "7" none false = Except.error PyErr.attributeError
    from rfl] at h
  exact Except.noConfusion h

/-- Claim C4 (amended): for spoof-session payloads that are JSON
objects, normalization unwraps a `hydra:member` envelope when present,
selects exactly the last element when the unwrapped value is a list,
treats an empty unwrapped value as absent, and an enveloped list's
last element alone drives flag derivation (`local_v4 = true` for the
spec's scenario, irrespective of earlier elements).  Non-object
payloads raise `AttributeError` instead (see the counterexample). -/
theorem claim_C4_amended_last_element_wins :
    (∀ fs xs x, jlookup fs "hydra:member" = some (.arr (xs ++ [x])) →
      normalizeSpoof (.obj fs) = .ok (some x)) ∧
    (∀ fs, jlookup fs "hydra:member" = none → fs ≠ [] →
      normalizeSpoof (.obj fs) = .ok (some (.obj fs))) ∧
    (∀ fs, jlookup fs "hydra:member" = some (.arr []) →
      normalizeSpoof (.obj fs) = .ok none) ∧
    (∀ r1 : JVal, handleAsn (envelope2 r1) "7" none false =
      .ok (.done (resSpoofable "7") [])) := by
  refine ⟨?_, ?_, ?_, ?_⟩
  · intro fs xs x h
    simp [normalizeSpoof, JVal.getOr, h, JVal.truthy, List.getLastD_concat]
  · intro fs h hne
    have hemp : fs.isEmpty = false := by
      cases fs
      · exact absurd rfl hne
      · rfl
    simp [normalizeSpoof, JVal.getOr, h, JVal.truthy, hemp]
  · intro fs h
    simp [normalizeSpoof, JVal.getOr, h, JVal.truthy]
  · intro r1
    rfl

/-- Witness for the amended C4: an envelope whose member list ends in
`5` normalizes to exactly that last element. -/
theorem claim_C4_amended_witness :
    normalizeSpoof (.obj [("hydra:member", .arr [.null, .num 5])]) = .ok (some (.num 5)) :=
  claim_C4_amended_last_element_wins.1 [("hydra:member", .arr [.null, .num 5])]
    [.null] (.num 5) rfl

/-! ## Claim C7 -/

/-- Claim C7 counterexample: a spoof record whose `timestamp` field is
`null`.  The claim says any unparsable timestamp value yields an
absent timestamp and enrichment continues; the code's
`except ValueError` does not catch the `TypeError` that
`datetime.strptime(None, ...)` raises, so the enrichment aborts with
an uncaught exception instead of producing its result. -/
theorem claim_C7_counterexample :
    handleAsn (envTsRec .null) "7" none false = .error .typeError ∧
    handleAsn (envTsRec .null) "7" none false ≠ .ok (.done (resPlain none "7") []) := by
  refine ⟨rfl, fun h => ?_⟩
  rw [show handleAsn (envTsRec .null) "7" none false = Except.error PyErr.typeError
    from rfl] at h
  exact Except.noConfusion h

/-- Claim C7 (amended): a missing `timestamp` field, or any string
value in it, never raises — enrichment completes and the parsed
timestamp is `strptimeTs s` (absent exactly on parse failure); only a
non-string value (e.g. `null`) raises the uncaught `TypeError` of the
counterexample. -/
theorem claim_C7_amended_string_timestamps_never_raise :
    (∀ s : String, handleAsn (envTsRec (.str s)) "7" none false =
      .ok (.done (resPlain (strptimeTs s) "7") [])) ∧
    (handleAsn envTsMissing "7" none false = .ok (.done (resPlain none "7") [])) := by
  exact ⟨fun s => rfl, rfl⟩

/-! ## Claim C2 -/

/-- A batch environment whose ASN `1` worker raises (null timestamp)
while every other worker succeeds. -/
def batchEnvCrash : String → Env :=
  fun a => if a = "1" then envTsRec .null else envGood

/-- Claim C2 counterexample: in a batch over ASNs 1 and 2 where worker
1 raises an uncaught `TypeError` (null timestamp) and worker 2 would
complete normally, `await gather(*tasks)` re-raises the exception, so
the batch call does not complete and delivers no outcome list — the
claim demanded that every other ASN still be processed and the batch
call complete. -/
theorem claim_C2_counterexample :
    runBatch batchEnvCrash ["1", "2"] none false none = .error .typeError ∧
    handleAsn (batchEnvCrash "2") "2" none false = .ok (.done (resSpoofable "2") []) := by
  exact ⟨rfl, rfl⟩

/-- `gather` over workers that all return: the batch completes with
one outcome per worker, in order. -/
theorem runWorkers_ok (w : String → Except PyErr Outcome) (l : List String)
    (h : ∀ a ∈ l, ∃ o, w a = .ok o) :
    ∃ outs, runWorkers w l = .ok outs ∧
      List.Forall₂ (fun a o => w a = .ok o) l outs := by
  induction l with
  | nil => exact ⟨[], rfl, .nil⟩
  | cons a rest ih =>
    obtain ⟨o, ho⟩ := h a (by simp)
    obtain ⟨outs, houts, hfa⟩ := ih (fun b hb => h b (by simp [hb]))
    refine ⟨o :: outs, ?_, .cons ho hfa⟩
    simp [runWorkers, ho, houts]

/-- Claim C2 (amended): a worker that merely finds no data (absent
enrichment, `noData`) or is filtered does not abort the batch: when
every worker returns without raising, the batch call completes with
exactly one outcome per deduplicated ASN, none dropped.  An uncaught
exception inside any worker, however, propagates out of
`await gather(*tasks)` (`return_exceptions` defaults to `False`) and
aborts the batch call (see the counterexample). -/
theorem claim_C2_amended_isolation_of_nonraising_failures
    (env : String → Env) (asns : List String) (cf : Option String)
    (eo : Bool) (limit : Option Int)
    (h : ∀ a ∈ batchTargets asns limit, ∃ o, handleAsn (env a) a cf eo = .ok o) :
    ∃ outs, runBatch env asns cf eo limit = .ok outs ∧
      List.Forall₂ (fun a o => handleAsn (env a) a cf eo = .ok o)
        (batchTargets asns limit) outs :=
  runWorkers_ok _ _ h

/-- Witness for the amended C2: a two-ASN batch in which ASN 1 finds
no data (absent enrichment) while ASN 2 enriches fully — the batch
completes and both outcomes are delivered. -/
def batchEnvOneAbsent : String → Env :=
  fun a => if a = "1" then ⟨.null, rankGood, none, none, none, none, none⟩ else envGood

theorem claim_C2_amended_isolation_witness :
    ∃ outs, runBatch batchEnvOneAbsent ["1", "2"] none false none = .ok outs ∧
      List.Forall₂ (fun a o => handleAsn (batchEnvOneAbsent a) a none false = .ok o)
        (batchTargets ["1", "2"] none) outs := by
  refine claim_C2_amended_isolation_of_nonraising_failures batchEnvOneAbsent
    ["1", "2"] none false none ?_
  intro a ha
  have hl : batchTargets ["1", "2"] none = ["1", "2"] := rfl
  rw [hl] at ha
  simp only [List.mem_cons, List.not_mem_nil, or_false] at ha
  rcases ha with rfl | rfl
  · exact ⟨.noData, rfl⟩
  · exact ⟨.done (resSpoofable "2") [], rfl⟩

/-! ## Claim C9 -/

/-- Claim C9 counterexample: with `concurrency = 0` the gate is
created with `max(1, 0) = 1` permit, so a state with one active
enrichment is reachable — exceeding the claimed bound
`concurrencyLimit = 0`. -/
theorem claim_C9_counterexample :
    ReachableSem 1 0 ⟨0, 1, 0⟩ ∧ ¬((1 : Int) ≤ 0) := by
  constructor
  · have h1 : initState 1 0 = ⟨1, 0, 1⟩ := by decide
    unfold ReachableSem
    rw [h1]
    exact Relation.ReflTransGen.single (SemStep.acquire 0 0 0)
  · decide

/-- Claim C9 (amended): in every reachable state of a batch run the
number of active enrichment invocations plus free permits is exactly
the gate size `max(1, concurrency)`, hence active workers never exceed
`max(1, concurrency)`; in particular for `concurrency ≥ 1` they never
exceed `concurrency` (the bound the claim states fails only for
`concurrency ≤ 0`, see the counterexample). -/
theorem claim_C9_amended_gate_bounds_active (n : Nat) (conc : Int) (s : SemState)
    (h : ReachableSem n conc s) :
    s.active + s.permits = gateSize conc ∧ s.active ≤ gateSize conc ∧
      (1 ≤ conc → (s.active : Int) ≤ conc) := by
  have key : s.active + s.permits = gateSize conc := by
    induction h with
    | refl => simp [initState]
    | tail _ step ih => cases step <;> simp_all <;> omega
  refine ⟨key, by omega, fun hc => ?_⟩
  have hg : gateSize conc = conc.toNat := by
    unfold gateSize
    congr 1
    omega
  omega

/-- Witness for the amended C9 at the initial state of a batch of two
ASNs with concurrency 3. -/
theorem claim_C9_amended_gate_bounds_witness :
    (initState 2 3).active + (initState 2 3).permits = gateSize 3 ∧
    (initState 2 3).active ≤ gateSize 3 ∧
      (1 ≤ (3 : Int) → ((initState 2 3).active : Int) ≤ 3) :=
  claim_C9_amended_gate_bounds_active 2 3 (initState 2 3) Relation.ReflTransGen.refl

/-! ## Claim C5 -/

/-- Claim C5: every token matching `^(AS|as)?\d+$` resolves, via
`parse_asn` inside `_to_asn`, to its digit suffix (the token with the
case-insensitive `AS` prefix removed, unchanged), reaching the
all-digits return at line 297 — the `localAsn` constructor, before any
`get_asn_info` network call and independent of the `ipFirst` oracle. -/
theorem claim_C5_asn_tokens_resolve_locally
    (ipFirst : List Char → Option (List Char)) (tok : List Char)
    (h : matchesAsnToken tok = true) :
    toAsnModel ipFirst tok = .localAsn (parse_asn tok) ∧
      pyIsDigit (parse_asn tok) = true := by
  unfold matchesAsnToken at h
  split at h
  case isTrue hcond =>
    simp only [Bool.or_eq_true] at hcond
    obtain ⟨t1, t2, rest, rfl, hpa⟩ :
        ∃ t1 t2 rest, tok = t1 :: t2 :: rest ∧ parse_asn (t1 :: t2 :: rest) = rest := by
      rcases hcond with h1 | h1
      · obtain ⟨rest, rfl⟩ := (listStartsWith2_iff 'A' 'S' tok).1 h1
        exact ⟨'A', 'S', rest, rfl, rfl⟩
      · obtain ⟨rest, rfl⟩ := (listStartsWith2_iff 'a' 's' tok).1 h1
        exact ⟨'a', 's', rest, rfl, rfl⟩
    have hws12 : t1.isWhitespace = false ∧ t2.isWhitespace = false := by
      rcases hcond with h1 | h1 <;>
        obtain ⟨rest2, heq⟩ := (listStartsWith2_iff _ _ _).1 h1 <;>
        · injection heq with e1 heq2
          injection heq2 with e2 _
          subst e1
          subst e2
          exact ⟨rfl, rfl⟩
    have hdrop : (t1 :: t2 :: rest).drop 2 = rest := rfl
    rw [hdrop] at h
    have hdig := pyIsDigit_mem rest h
    have hstrip : pyStrip (t1 :: t2 :: rest) = t1 :: t2 :: rest := by
      apply pyStrip_eq_self
      intro c hc
      simp only [List.mem_cons] at hc
      rcases hc with rfl | rfl | hc
      · exact hws12.1
      · exact hws12.2
      · exact digit_not_ws c (hdig c hc)
    have hm1 : '/' ∉ rest := not_mem_of_digits rest hdig '/' (by decide)
    have hm2 : '-' ∉ rest := not_mem_of_digits rest hdig '-' (by decide)
    refine ⟨?_, by rw [hpa]; exact h⟩
    rw [hpa]
    simp [toAsnModel, hstrip, hpa, hm1, hm2, h]
  case isFalse hcond =>
    have hdig := pyIsDigit_mem tok h
    have hne := pyIsDigit_not_nil tok h
    have hemp : tok.isEmpty = false := by
      cases tok
      · exact absurd rfl hne
      · rfl
    have hstrip : pyStrip tok = tok := by
      apply pyStrip_eq_self
      intro c hc
      exact digit_not_ws c (hdig c hc)
    have hlow : listStartsWith ['a', 's'] (pyLower tok) = false := by
      cases hls : listStartsWith ['a', 's'] (pyLower tok)
      · rfl
      · exfalso
        obtain ⟨rest, hrest⟩ := (listStartsWith2_iff 'a' 's' (pyLower tok)).1 hls
        cases tok with
        | nil => simp [pyLower] at hrest
        | cons c t =>
          simp only [pyLower, List.map_cons, List.cons.injEq] at hrest
          exact digit_ne_lower_a c (hdig c (by simp)) hrest.1
    have hpa : parse_asn tok = tok := by
      unfold parse_asn
      rw [hlow]
      simp
    have hm1 : '/' ∉ tok := not_mem_of_digits tok hdig '/' (by decide)
    have hm2 : '-' ∉ tok := not_mem_of_digits tok hdig '-' (by decide)
    refine ⟨?_, by rw [hpa]; exact h⟩
    rw [hpa]
    simp [toAsnModel, hstrip, hpa, hm1, hm2, h, hemp]

/-- Witness for C5 at the spec's scenario token `AS65000`: resolved to
`65000` without reaching the network branch. -/
theorem claim_C5_asn_tokens_resolve_locally_witness :
    toAsnModel (fun _ => none) "AS65000".toList =
      .localAsn (parse_asn "AS65000".toList) ∧
    pyIsDigit (parse_asn "AS65000".toList) = true :=
  claim_C5_asn_tokens_resolve_locally (fun _ => none) "AS65000".toList (by decide)

/-! ## Claim C8 -/

/-- Claim C8: for a token that contains `/` or `-` after prefix
stripping, `_to_asn` resolves exactly as it would resolve the parsed
network's first address (`str(IPNetwork(token)[0])`, supplied by the
`ipFirst` oracle) as a plain token, and when network parsing fails
(`AddrFormatError`) the resolution of that single token is absent.
The side conditions on the address string `a` state what a rendered
IP address satisfies: no surrounding whitespace, no `as` prefix, no
`/` or `-`, nonempty. -/
theorem claim_C8_cidr_resolves_via_first_address
    (ipFirst : List Char → Option (List Char)) (tok : List Char)
    (hne : (pyStrip tok).isEmpty = false)
    (hcr : ((parse_asn (pyStrip tok)).contains '/' ||
      (parse_asn (pyStrip tok)).contains '-') = true) :
    (ipFirst (parse_asn (pyStrip tok)) = none →
      toAsnModel ipFirst tok = .invalidRange) ∧
    (∀ a, ipFirst (parse_asn (pyStrip tok)) = some a → pyStrip a = a →
      parse_asn a = a → '/' ∉ a → '-' ∉ a → a ≠ [] →
      toAsnModel ipFirst tok = toAsnModel ipFirst a) := by
  simp only [Bool.or_eq_true] at hcr
  have hmem : '/' ∈ parse_asn (pyStrip tok) ∨ '-' ∈ parse_asn (pyStrip tok) := by
    rcases hcr with h1 | h1
    · exact Or.inl (List.elem_iff.1 h1)
    · exact Or.inr (List.elem_iff.1 h1)
  constructor
  · intro hn
    simp [toAsnModel, hne, hmem, hn]
  · intro a ha hstrip hpa hm1 hm2 hane
    have hemp : a.isEmpty = false := by
      cases a
      · exact absurd rfl hane
      · rfl
    have hL : toAsnModel ipFirst tok =
        if pyIsDigit a = true then .localAsn a else .lookup a := by
      simp [toAsnModel, hne, hmem, ha]
    have hR : toAsnModel ipFirst a =
        if pyIsDigit a = true then .localAsn a else .lookup a := by
      simp [toAsnModel, hstrip, hemp, hpa, hm1, hm2]
    rw [hL, hR]

/-- A netaddr oracle for the witness: `IPNetwork("8.8.8.0/24")[0]`
renders as `8.8.8.0`. -/
def ipFirst8 : List Char → Option (List Char) := fun _ => some "8.8.8.0".toList

/-- Witness for C8 at the spec's scenario `8.8.8.0/24`: the CIDR token
resolves exactly as its first address does. -/
theorem claim_C8_cidr_resolves_witness :
    toAsnModel ipFirst8 "8.8.8.0/24".toList = toAsnModel ipFirst8 "8.8.8.0".toList :=
  (claim_C8_cidr_resolves_via_first_address ipFirst8 "8.8.8.0/24".toList
    (by decide) (by decide)).2 "8.8.8.0".toList rfl (by decide) (by decide)
    (by decide) (by decide) (by decide)

/-! ## Claim C10 -/

theorem contains_false_iff (l : List String) (x : String) :
    l.contains x = false ↔ x ∉ l := by
  constructor
  · intro h hm
    have h2 : l.contains x = true := List.elem_iff.2 hm
    rw [h2] at h
    cases h
  · intro hm
    cases hc : l.contains x
    · rfl
    · exact absurd (List.elem_iff.1 hc) hm

/-- What the `_run_batch` normalization loop computes: first-seen-order
deduplication of the per-token normalizations that survive the
`isdigit` check. -/
theorem batchNormalizeAux_spec (l : List String) : ∀ seen acc,
    batchNormalizeAux seen acc l =
      acc.reverse ++ dedupFirstAux seen ((l.map normTok).filter pyIsDigitS) := by
  induction l with
  | nil =>
    intro seen acc
    simp [batchNormalizeAux, dedupFirstAux]
  | cons a rest ih =>
    intro seen acc
    by_cases h1 : pyStripS a = ""
    · have hnt : normTok a = "" := by
        unfold normTok
        rw [h1]
        rfl
      have hed : pyIsDigitS "" = false := rfl
      simp [batchNormalizeAux, h1, ih, hnt, hed]
    · by_cases h2 : pyIsDigitS (normTok a) = true
      · by_cases h3 : pyStripS (pyLstripASS (pyStripS a)) ∈ seen
        · simp only [normTok] at h2
          simp [batchNormalizeAux, h1, h2, h3, ih, dedupFirstAux, normTok]
        · simp only [normTok] at h2
          simp [batchNormalizeAux, h1, h2, h3, ih, dedupFirstAux, normTok]
      · simp only [normTok] at h2
        simp [batchNormalizeAux, h1, h2, ih, dedupFirstAux, normTok]

theorem mem_dedupFirstAux (x : String) : ∀ (l seen : List String),
    x ∈ dedupFirstAux seen l → x ∈ l := by
  intro l
  induction l with
  | nil =>
    intro seen h
    simp [dedupFirstAux] at h
  | cons a rest ih =>
    intro seen h
    unfold dedupFirstAux at h
    by_cases hc : seen.contains a = true
    · rw [if_pos hc] at h
      exact .tail _ (ih _ h)
    · rw [if_neg hc] at h
      rw [List.mem_cons] at h
      rcases h with rfl | h
      · exact .head _
      · exact .tail _ (ih _ h)

theorem dedupFirstAux_nodup : ∀ (l seen : List String),
    (dedupFirstAux seen l).Nodup ∧ ∀ x ∈ dedupFirstAux seen l, x ∉ seen := by
  intro l
  induction l with
  | nil =>
    intro seen
    simp [dedupFirstAux]
  | cons a rest ih =>
    intro seen
    unfold dedupFirstAux
    by_cases hns : seen.contains a = true
    · rw [if_pos hns]
      exact ih seen
    · rw [if_neg hns]
      have hna : a ∉ seen := (contains_false_iff seen a).1 (by
        cases hc : seen.contains a
        · rfl
        · exact absurd hc hns)
      obtain ⟨hnd, hout⟩ := ih (a :: seen)
      refine ⟨List.nodup_cons.2 ⟨fun hm => ?_, hnd⟩, ?_⟩
      · exact hout a hm (by simp)
      · intro x hx
        rw [List.mem_cons] at hx
        rcases hx with rfl | hx
        · exact hna
        · intro hxs
          exact hout x hx (by simp [hxs])

theorem batchNormalize_all_digits (asns : List String) :
    ∀ x ∈ batchNormalize asns, pyIsDigitS x = true := by
  intro x hx
  rw [batchNormalize, batchNormalizeAux_spec] at hx
  simp only [List.reverse_nil, List.nil_append] at hx
  have := mem_dedupFirstAux x _ _ hx
  exact (List.mem_filter.1 this).2

/-- Claim C10: `_run_batch` passes only all-digit strings to the
enrichment workers; each token is stripped of every leading `A` or `S`
character (a character-set strip: `SA123` and `ASAS123` both become
`123`), tokens that are not all digits after stripping are dropped
with no per-token message (the loop at lines 371-380 logs nothing),
and the survivors are deduplicated keeping first-seen order. -/
theorem claim_C10_batch_normalization :
    (∀ asns : List String, ∀ x ∈ batchNormalize asns, pyIsDigitS x = true) ∧
    (∀ asns : List String, (batchNormalize asns).Nodup) ∧
    (∀ asns : List String, batchNormalize asns =
      dedupFirstAux [] ((asns.map normTok).filter pyIsDigitS)) ∧
    batchNormalize ["SA123"] = ["123"] ∧
    batchNormalize ["ASAS123"] = ["123"] ∧
    batchNormalize ["AS2", "x99", "AS1", "2"] = ["2", "1"] := by
  refine ⟨batchNormalize_all_digits, ?_, ?_, rfl, rfl, rfl⟩
  · intro asns
    rw [batchNormalize, batchNormalizeAux_spec]
    simpa using (dedupFirstAux_nodup _ []).1
  · intro asns
    rw [batchNormalize, batchNormalizeAux_spec]
    simp
